import Mathlib

set_option maxRecDepth 4000

/-!
Shallow embedding of the SkinnyJS postMessage plugin
(src/js/jquery.postMessage.js).  Pure Lean models of the window-path
resolution algorithm, the send orchestration and the receive dispatch,
translated function by function from the JavaScript source.  Machine
details that matter are kept: JavaScript truthiness of strings, the
undefined/NaN arithmetic of the omitted recursion-depth argument, and
the exact string grammar produced by the path serializer.
-/

/-- A JavaScript value flowing through the message plumbing: either
undefined or a string.  No other value kind reaches these code paths. -/
inductive JSVal where
  | undef : JSVal
  | str : String → JSVal
deriving DecidableEq, Repr

/-- JavaScript truthiness restricted to the values above: undefined is
falsy, a string is truthy unless it is empty. -/
def JSVal.truthy : JSVal → Bool
  | JSVal.undef => false
  | JSVal.str s => s != ""

/-- An allow-rule as accepted by jQuery.receiveMessage: a string
(exact origin or the wildcard), a predicate, or any other value kind
(number, regex, plain object), abstracted by one constructor since the
source only ever asks whether the rule is a string or a function. -/
inductive AllowRule where
  | str : String → AllowRule
  | fn : (JSVal → Bool) → AllowRule
  | other : AllowRule

/-- Lines 92-107 of jquery.postMessage.js: isOriginMatch.  A string
rule fails only when the origin differs from it and it is not the
wildcard; a function rule fails only when the predicate rejects the
origin; every other rule kind falls through to the final return true. -/
def isOriginMatch : AllowRule → JSVal → Bool
  | AllowRule.str pat, o => if o ≠ JSVal.str pat ∧ pat ≠ "*" then false else true
  | AllowRule.fn f, o => if ¬ f o then false else true
  | AllowRule.other, _ => true

/-- Value of a hexadecimal digit character, none for other characters. -/
def hexDigitVal (c : Char) : Option Nat :=
  if '0' ≤ c ∧ c ≤ '9' then some (c.toNat - '0'.toNat)
  else if 'a' ≤ c ∧ c ≤ 'f' then some (c.toNat - 'a'.toNat + 10)
  else if 'A' ≤ c ∧ c ≤ 'F' then some (c.toNat - 'A'.toNat + 10)
  else none

/-- Model of the ECMAScript builtin decodeURIComponent (not repository
code) on character lists: each percent-escape of two hex digits decodes
to the character with that code, other characters pass through, and a
malformed escape (what the builtin reports as a URIError) gives none.
Escapes at or above 128, which the builtin treats as UTF-8 multibyte
sequences, are outside the modelled domain and also give none; no
theorem below touches that branch. -/
def percentDecodeList : List Char → Option (List Char)
  | [] => some []
  | '%' :: a :: b :: rest =>
    match hexDigitVal a, hexDigitVal b with
    | some x, some y =>
      if 16 * x + y < 128 then
        (percentDecodeList rest).map (fun l => Char.ofNat (16 * x + y) :: l)
      else none
    | _, _ => none
  | '%' :: _ => none
  | c :: rest => (percentDecodeList rest).map (fun l => c :: l)

/-- decodeURIComponent on strings. -/
def percentDecode (s : String) : Option String :=
  (percentDecodeList s.toList).map (fun l => String.mk l)

/-- Leftmost-match engine for the replace on lines 83-86: scanning the
url, pre holds the characters before the current run (reversed), run
holds the current maximal run of non-colon characters (reversed).  A
match needs a nonempty non-colon run, the literal colon-slash-slash,
and a nonempty run of non-slash characters; the trailing dot-star of
the pattern then consumes up to the next newline.  Returns the prefix
before the match, the first capture group, and the unmatched suffix. -/
def domainSplit : List Char → List Char → List Char → Option (List Char × List Char × List Char)
  | _, _, [] => none
  | pre, run, ':' :: '/' :: '/' :: rest =>
    let host := rest.takeWhile (fun c => c ≠ '/')
    if run = [] ∨ host = [] then
      domainSplit ('/' :: '/' :: ':' :: (run ++ pre)) [] rest
    else
      some (pre.reverse, run.reverse ++ ':' :: '/' :: '/' :: host,
        (rest.drop host.length).dropWhile (fun c => c ≠ '\n'))
  | pre, run, ':' :: rest => domainSplit (':' :: (run ++ pre)) [] rest
  | pre, run, c :: rest => domainSplit pre (c :: run) rest

/-- Lines 83-86: getDomainFromUrl replaces the first match of the
domain pattern by its capture group; with no match the url is returned
unchanged. -/
def getDomainFromUrl (url : String) : String :=
  match domainSplit [] [] url.toList with
  | some (pre, dom, suffix) => String.mk (pre ++ dom ++ suffix)
  | none => url

/-- Finite model of the browser window graph: windows are numbered,
each has a list of child frames, an optional parent and an optional
opener (none models a null or undefined reference, which is falsy). -/
structure WinGraph where
  frames : Nat → List Nat
  parent : Nat → Option Nat
  opener : Nat → Option Nat

/-- The level parameter of transverseLevel as a JavaScript value.  The
initial call on line 236 passes no third argument, so level starts as
undefined; undefined plus one is NaN, NaN plus one stays NaN, and any
comparison against NaN or undefined is false. -/
inductive JSLevel where
  | undef : JSLevel
  | nan : JSLevel
  | num : Int → JSLevel
deriving DecidableEq, Repr

/-- The expression level + 1 passed to each recursive call. -/
def JSLevel.add1 : JSLevel → JSLevel
  | JSLevel.undef => JSLevel.nan
  | JSLevel.nan => JSLevel.nan
  | JSLevel.num n => JSLevel.num (n + 1)

/-- The guard expression level >= 4 on line 161. -/
def JSLevel.ge4 : JSLevel → Bool
  | JSLevel.num n => decide (4 ≤ n)
  | _ => false

/-- The direct frame scan on lines 119-148: first index at which the
window list holds the target, none otherwise. -/
def findFrameIdx (t : Nat) : List Nat → Nat → Option Nat
  | [], _ => none
  | f :: rest, i => if f = t then some i else findFrameIdx t rest (i + 1)

/-- The frame loop on lines 170-177: walk the recursion results in
index order; the first call that never returns makes the loop never
return, the first truthy reference is prefixed with its frame index
and the separator, and an exhausted loop falls through. -/
def framesLoopStep : List (Nat × Option (Option String)) → Option (Option String)
  | [] => some none
  | (_, none) :: _ => none
  | (i, some (some r)) :: _ => some (some ("f," ++ toString i ++ "." ++ r))
  | (_, some none) :: rest => framesLoopStep rest

/-- Lines 117-199: transverseLevel.  Direct hits first (child frame as
f comma index, then parent as p, then opener as o), then the dead
depth guard, then recursion into frames, parent and opener in that
order; note line 194 concatenates the opener prefix without the dot
separator.  The extra fuel argument makes the possibly nonterminating
JavaScript recursion definable: an outer none means the computation
does not return within fuel nested calls, so a result that is none for
every fuel is a recursion that never returns.  Inner none is the
JavaScript return value false.  The frame enumeration is modelled as
the numeric frame indices (the intent of the for-in loop); the catch
blocks for cross-origin access faults are not reachable in this
single-origin model. -/
def transverseLevel (g : WinGraph) : Nat → Nat → Nat → JSLevel → Option (Option String)
  | 0, _, _, _ => none
  | fuel + 1, w, target, level =>
    match findFrameIdx target (g.frames w) 0 with
    | some i => some (some ("f," ++ toString i))
    | none =>
      if g.parent w = some target then some (some "p")
      else if g.opener w = some target then some (some "o")
      else if level.ge4 then some none
      else
        let openerStep : Option (Option String) :=
          match g.opener w with
          | some op =>
            if op ≠ w then
              match transverseLevel g fuel op target level.add1 with
              | none => none
              | some (some r) => some (some ("o" ++ r))
              | some none => some none
            else some none
          | none => some none
        let parentStep : Option (Option String) :=
          match g.parent w with
          | some par =>
            if par ≠ w then
              match transverseLevel g fuel par target level.add1 with
              | none => none
              | some (some r) => some (some ("p." ++ r))
              | some none => openerStep
            else openerStep
          | none => openerStep
        match framesLoopStep ((g.frames w).enum.map
            (fun p => (p.1, transverseLevel g fuel p.2 target level.add1))) with
        | none => none
        | some (some r) => some (some r)
        | some none => parentStep

/-- Target of a send: a live window reference or a window name. -/
inductive WTarget where
  | win : Nat → WTarget
  | name : String → WTarget
deriving DecidableEq, Repr

/-- The two exceptions serializeWindowReference can throw. -/
inductive SerializeError where
  | selfReference : SerializeError
  | unresolvable : SerializeError
deriving DecidableEq, Repr

/-- Lines 208-245: serializeWindowReference.  A string target returns
a colon-prefixed name at once; a self target throws; then the parent
and the opener are checked directly (each guarded against the trivial
self loop) before transverseLevel is invoked with no level argument,
so with level undefined.  Outer none again means the call never
returns. -/
def serializeWindowReference (g : WinGraph) (fuel : Nat) (currentWindow : Nat)
    (targetWindow : WTarget) : Option (Except SerializeError String) :=
  match targetWindow with
  | WTarget.name s => some (Except.ok (":" ++ s))
  | WTarget.win t =>
    if currentWindow = t then some (Except.error SerializeError.selfReference)
    else if g.parent currentWindow = some t ∧ t ≠ currentWindow then some (Except.ok "p")
    else if g.opener currentWindow = some t ∧ t ≠ currentWindow then some (Except.ok "o")
    else
      match transverseLevel g fuel currentWindow t JSLevel.undef with
      | none => none
      | some (some ref) =>
        if ref ≠ "" then some (Except.ok ref) else some (Except.error SerializeError.unresolvable)
      | some none => some (Except.error SerializeError.unresolvable)

/-- Behavior of the native targetWindow.postMessage call in the
current environment: it either succeeds or throws an exception whose
diagnostic number is given. -/
inductive NativeBehavior where
  | succeeds : NativeBehavior
  | throwsNum : Int → NativeBehavior
deriving DecidableEq, Repr

/-- Behavior of the direct-call shortcut on lines 298-309: reading the
hook may throw or find nothing (both fall through), the call itself
may throw (swallowed by the same catch, falling through), or the call
delivers. -/
inductive HookState where
  | unreachable : HookState
  | throwsOnCall : HookState
  | delivers : HookState
deriving DecidableEq, Repr

/-- Environment facts the send path branches on. -/
structure SendEnv where
  browserSupportsPostMessage : Bool
  native : NativeBehavior
  hook : HookState
  locationHref : String
deriving DecidableEq, Repr

/-- Observable effect of a completed send: a native delivery with the
message and normalized target origin, a direct hook call with the raw
message and normalized target origin, or a hidden proxy iframe whose
source url is assembled from the normalized target origin, the fixed
proxy resource path, and a fragment holding a freshness token, the
serialized reference, the sender domain and the percent-encoded
message; the proxyFrame constructor records those four inputs (target
origin, serialized reference, sender domain, raw message). -/
inductive SendOutcome where
  | nativeDelivered : String → String → SendOutcome
  | hookDelivered : String → String → SendOutcome
  | proxyFrame : String → String → String → String → SendOutcome
deriving DecidableEq, Repr

/-- The exceptions jQuery.postMessage can raise. -/
inductive SendError where
  | missingOrigin : SendError
  | missingTarget : SendError
  | selfReference : SendError
  | unresolvableWindow : SendError
  | nativeError : Int → SendError
deriving DecidableEq, Repr

/-- Lines 254-334: jQuery.postMessage.  Argument checks first, then
the native attempt (a failure with the known no-such-interface number
minus 2147467262 falls through, any other failure is re-raised), then
the direct hook shortcut, then the proxy fallback through
serializeWindowReference applied to the window name if one is supplied
and truthy, else the live target.  The pair returned is the result and
the cacheBuster counter, which is incremented exactly when a proxy
frame is created; none as result means the call never returns (this
can only come from serializeWindowReference).  A missing targetHost is
the empty string, a missing targetWindow is none. -/
def postMessage (env : SendEnv) (g : WinGraph) (fuel : Nat) (selfW : Nat)
    (message targetHost : String) (targetWindow : Option Nat)
    (targetWindowName : Option String) (cacheBuster : Nat) :
    Option (Except SendError SendOutcome) × Nat :=
  if targetHost = "" then (some (Except.error SendError.missingOrigin), cacheBuster)
  else if targetWindow = none then (some (Except.error SendError.missingTarget), cacheBuster)
  else
    let host := getDomainFromUrl targetHost
    let afterNative : Option (Except SendError SendOutcome) × Nat :=
      if env.hook = HookState.delivers then
        (some (Except.ok (SendOutcome.hookDelivered message host)), cacheBuster)
      else
        let tgt : WTarget :=
          match targetWindowName with
          | some n => if n ≠ "" then WTarget.name n else WTarget.win (targetWindow.getD 0)
          | none => WTarget.win (targetWindow.getD 0)
        match serializeWindowReference g fuel selfW tgt with
        | none => (none, cacheBuster)
        | some (Except.error SerializeError.selfReference) =>
          (some (Except.error SendError.selfReference), cacheBuster)
        | some (Except.error SerializeError.unresolvable) =>
          (some (Except.error SendError.unresolvableWindow), cacheBuster)
        | some (Except.ok ref) =>
          (some (Except.ok (SendOutcome.proxyFrame host ref
            (getDomainFromUrl env.locationHref) message)), cacheBuster + 1)
    if env.browserSupportsPostMessage then
      match env.native with
      | NativeBehavior.succeeds =>
        (some (Except.ok (SendOutcome.nativeDelivered message host)), cacheBuster)
      | NativeBehavior.throwsNum n =>
        if n ≠ -2147467262 then (some (Except.error (SendError.nativeError n)), cacheBuster)
        else afterNative
    else afterNative

/-- A native message event as seen through event.originalEvent. -/
structure NativeEvent where
  data : String
  origin : String
deriving DecidableEq, Repr

/-- The jQuery event object handed to a message handler: a native
delivery carries the original browser event, a triggered delivery does
not (and then both event.data and event.origin are undefined). -/
structure JqEvent where
  originalEvent : Option NativeEvent
deriving DecidableEq, Repr

/-- The fallback expression for the origin on lines 361-364: the
origin of the original event when there is one, else the origin field
of the synthetic event, which is undefined. -/
def eventOwnOrigin (ev : JqEvent) : JSVal :=
  match ev.originalEvent with
  | some oe => JSVal.str oe.origin
  | none => JSVal.undef

/-- The fallback expression for the data on lines 356-359. -/
def eventOwnData (ev : JqEvent) : JSVal :=
  match ev.originalEvent with
  | some oe => JSVal.str oe.data
  | none => JSVal.undef

/-- The origin variable after lines 361-364: the caller-supplied
argument if truthy, else the fallback from the event. -/
def reportedOrigin (ev : JqEvent) (originArg : JSVal) : JSVal :=
  if originArg.truthy then originArg else eventOwnOrigin ev

/-- The data variable after lines 356-359. -/
def reportedData (ev : JqEvent) (dataArg : JSVal) : JSVal :=
  if dataArg.truthy then dataArg else eventOwnData ev

/-- The second argument of the isOriginMatch call on line 366: the
origin of the original event when there is one, else the origin
variable as reassigned above. -/
def validatedOrigin (ev : JqEvent) (originArg : JSVal) : JSVal :=
  match ev.originalEvent with
  | some oe => JSVal.str oe.origin
  | none => reportedOrigin ev originArg

/-- The record handed to a registered callback. -/
structure Delivered where
  data : JSVal
  origin : JSVal
deriving DecidableEq, Repr

/-- Lines 354-369: the handler body registered by jQuery.receiveMessage,
for one callback and rule.  Returns the record the callback receives,
or none when the rule rejects the validated origin. -/
def handlerRun (rule : AllowRule) (ev : JqEvent) (dataArg originArg : JSVal) :
    Option Delivered :=
  if isOriginMatch rule (validatedOrigin ev originArg) then
    some { data := reportedData ev dataArg, origin := reportedOrigin ev originArg }
  else none

/-- One entry of the page-wide dispatch table: the allow-rule and an
identifier standing for the callback closure. -/
structure Handler where
  rule : AllowRule
  cbId : Nat

/-- Page-wide reception state: the dispatch table in registration
order, and the number of native inbound-message listeners installed. -/
structure PageState where
  handlers : List Handler
  nativeListeners : Nat

/-- The state of a fresh page before any registration. -/
def initialPage : PageState := { handlers := [], nativeListeners := 0 }

/-- Modelled from the spec: the jQuery event module is not part of
src/.  Binding a handler for a type on an element installs the single
native listener for that element and type only when it is the first
such handler, and appends the handler to the dispatch table; a handler
returning false only marks the event cancelled and never stops the
remaining handlers of the same element from running. -/
def jqOn (st : PageState) (h : Handler) : PageState :=
  { handlers := st.handlers ++ [h],
    nativeListeners :=
      if st.handlers.isEmpty then st.nativeListeners + 1 else st.nativeListeners }

/-- JavaScript falsiness of the allowedOriginOrFunction argument on
line 349: absent or an empty string rule (functions and the other
value kinds modelled here are truthy). -/
def jsFalsyRule : Option AllowRule → Bool
  | none => true
  | some (AllowRule.str s) => s == ""
  | some _ => false

/-- Lines 342-370: jQuery.receiveMessage.  A missing callback throws;
a falsy rule defaults to the wildcard; then the handler closure over
the callback and rule is bound on the window. -/
def receiveMessage (st : PageState) (callback : Option Nat) (rule : Option AllowRule) :
    Except Unit PageState :=
  match callback with
  | none => Except.error ()
  | some cbId =>
    let r := if jsFalsyRule rule then AllowRule.str "*" else rule.getD (AllowRule.str "*")
    Except.ok (jqOn st { rule := r, cbId := cbId })

/-- Modelled from the spec: dispatch of one inbound event by the
jQuery event module, which runs every bound handler in registration
order with the event and the extra trigger arguments; the collected
results are the callback invocations that took place. -/
def dispatchEvent (st : PageState) (ev : JqEvent) (dataArg originArg : JSVal) :
    List (Nat × Delivered) :=
  st.handlers.filterMap
    (fun h => (handlerRun h.rule ev dataArg originArg).map (fun d => (h.cbId, d)))

/-- Delivery of a native message event: jQuery invokes each handler
with the wrapped event and no extra arguments. -/
def dispatchNative (st : PageState) (oe : NativeEvent) : List (Nat × Delivered) :=
  dispatchEvent st { originalEvent := some oe } JSVal.undef JSVal.undef

/-- Lines 375-378: the page-level delivery hook (source name has two
leading underscores).  It percent-decodes the message and triggers the
message event with the decoded message and the origin as extra
arguments; a malformed escape makes the decode throw, so none.  The
synthetic event carries no original event. -/
def receiveMessageHook (st : PageState) (message origin : String) :
    Option (List (Nat × Delivered)) :=
  (percentDecode message).map (fun m =>
    dispatchEvent st { originalEvent := none } (JSVal.str m) (JSVal.str origin))

/-- Fold of successive receiveMessage registrations; the error branch
is unreachable because every callback is supplied. -/
def registerAll (st : PageState) : List (Nat × Option AllowRule) → PageState
  | [] => st
  | (cb, r) :: rest =>
    match receiveMessage st (some cb) r with
    | Except.ok st2 => registerAll st2 rest
    | Except.error _ => registerAll st rest

instance exceptDecEq {ε α : Type} [DecidableEq ε] [DecidableEq α] :
    DecidableEq (Except ε α) := fun x y =>
  match x, y with
  | Except.ok a, Except.ok b =>
    if h : a = b then isTrue (by rw [h])
    else isFalse (by intro e; injection e with e2; exact h e2)
  | Except.ok _, Except.error _ => isFalse (by intro e; exact Except.noConfusion e)
  | Except.error _, Except.ok _ => isFalse (by intro e; exact Except.noConfusion e)
  | Except.error a, Except.error b =>
    if h : a = b then isTrue (by rw [h])
    else isFalse (by intro e; injection e with e2; exact h e2)

/-- A window graph with no relations at all. -/
def noRelGraph : WinGraph :=
  { frames := fun _ => [], parent := fun _ => none, opener := fun _ => none }

/-- Environment in which the native postMessage call is available and
succeeds. -/
def envNativeOk : SendEnv :=
  { browserSupportsPostMessage := true
    native := NativeBehavior.succeeds
    hook := HookState.unreachable
    locationHref := "http://me.com/page" }

/-- Environment in which the native API is unsupported and no hook is
reachable, forcing the proxy fallback. -/
def envFallback : SendEnv :=
  { browserSupportsPostMessage := false
    native := NativeBehavior.succeeds
    hook := HookState.unreachable
    locationHref := "http://me.com/page" }

/-- Window 1 is both the only child frame of window 0 and its parent:
a legal configuration of the model graph, on which the claimed
frames-first tie-break is observable. -/
def frameParentGraph : WinGraph :=
  { frames := fun w => if w = 0 then [1] else []
    parent := fun w => if w = 0 then some 1 else none
    opener := fun _ => none }

/-- The simplest cyclic window graph: window 0 is the only child frame
of window 1, so window 0 has parent 1; window 1 is a top window whose
parent is itself, as in a real browser; window 2 exists but is related
to nothing and is therefore unreachable. -/
def cycleGraph : WinGraph :=
  { frames := fun w => if w = 1 then [0] else []
    parent := fun w => if w = 0 then some 1 else if w = 1 then some 1 else none
    opener := fun _ => none }

/-- Window 0 has opener 1, and the parent of window 1 is the target,
window 2: the shortest configuration forcing a multi-hop path whose
first hop is an opener hop. -/
def openerChainGraph : WinGraph :=
  { frames := fun _ => []
    parent := fun w => if w = 1 then some 2 else none
    opener := fun w => if w = 0 then some 1 else none }

/-- A page with one wildcard registration, identifier 0. -/
def onePage : PageState := registerAll initialPage [(0, none)]

/-- C7: origin matching for string rules.  The wildcard rule admits
every origin, every origin matches itself, and two different origins
do not match; the third part quantifies over origin strings, which by
the glossary are scheme-host-port values and thus never the wildcard,
made explicit by the side condition. -/
theorem origin_match_string_rules :
    (∀ o : String, isOriginMatch (AllowRule.str "*") (JSVal.str o) = true) ∧
    (∀ o : String, isOriginMatch (AllowRule.str o) (JSVal.str o) = true) ∧
    (∀ o1 o2 : String, o1 ≠ "*" → o1 ≠ o2 →
      isOriginMatch (AllowRule.str o1) (JSVal.str o2) = false) := by
  refine ⟨fun o => ?_, fun o => ?_, fun o1 o2 h1 h2 => ?_⟩
  · simp [isOriginMatch]
  · simp [isOriginMatch]
  · have hne : JSVal.str o2 ≠ JSVal.str o1 := by
      intro e
      injection e with e2
      exact h2 e2.symm
    simp [isOriginMatch, hne, h1]

theorem origin_match_string_rules_witness :
    isOriginMatch (AllowRule.str "http://a.com") (JSVal.str "http://b.com") = false :=
  origin_match_string_rules.2.2 "http://a.com" "http://b.com" (by decide) (by decide)

/-- C10: a rule that is neither a string nor a function passes both
type tests in isOriginMatch and falls through to the final return
true, so it admits every origin like the wildcard. -/
theorem unrecognized_rule_admits_all :
    ∀ o : String, isOriginMatch AllowRule.other (JSVal.str o) = true :=
  fun _ => rfl

/-- C9: jQuery.postMessage checks its arguments before anything else:
an empty targetHost raises the missing-origin error and a missing
targetWindow raises the missing-target error (when the targetHost is
present, since the origin check runs first); in both cases the result
carries no delivery outcome and the cacheBuster state is returned
unchanged, for every environment, graph, message and remaining
argument. -/
theorem missing_args_raise_before_delivery :
    ∀ (env : SendEnv) (g : WinGraph) (fuel selfW : Nat) (msg : String)
      (tw : Option Nat) (name : Option String) (cb : Nat),
      postMessage env g fuel selfW msg "" tw name cb =
        (some (Except.error SendError.missingOrigin), cb) ∧
      (∀ host : String, host ≠ "" →
        postMessage env g fuel selfW msg host none name cb =
          (some (Except.error SendError.missingTarget), cb)) := by
  intro env g fuel selfW msg tw name cb
  constructor
  · simp [postMessage]
  · intro host hh
    simp [postMessage, hh]

theorem missing_args_raise_before_delivery_witness :
    postMessage envNativeOk noRelGraph 3 0 "m" "http://x.com" none none 5 =
      (some (Except.error SendError.missingTarget), 5) :=
  (missing_args_raise_before_delivery envNativeOk noRelGraph 3 0 "m" none none 5).2
    "http://x.com" (by decide)

/-- C2 counterexample: with the native API available and succeeding, a
send whose target is the sending window itself is delivered natively
and raises nothing; the self-reference check sits behind the proxy
fallback, so the claimed failure on every execution path is false. -/
theorem self_target_native_delivery_succeeds :
    postMessage envNativeOk noRelGraph 5 0 "hello" "http://x.com" (some 0) none 1 =
      (some (Except.ok (SendOutcome.nativeDelivered "hello" "http://x.com")), 1) ∧
    (postMessage envNativeOk noRelGraph 5 0 "hello" "http://x.com" (some 0) none 1).1 ≠
      some (Except.error SendError.selfReference) := by
  constructor
  · rfl
  · decide

/-- C2 amended: a self-targeted send fails with the self-reference
error exactly when it reaches path resolution with the live target:
the native API is absent or its call fails with the known
no-such-interface code, the direct hook does not deliver, and no
window name is supplied; the cacheBuster state is unchanged. -/
theorem self_target_selfref_on_fallback_path :
    ∀ (env : SendEnv) (g : WinGraph) (fuel selfW : Nat) (msg host : String) (cb : Nat),
      host ≠ "" →
      (env.browserSupportsPostMessage = false ∨
        env.native = NativeBehavior.throwsNum (-2147467262)) →
      env.hook ≠ HookState.delivers →
      postMessage env g fuel selfW msg host (some selfW) none cb =
        (some (Except.error SendError.selfReference), cb) := by
  intro env g fuel selfW msg host cb hh hnat hhook
  have hser : serializeWindowReference g fuel selfW (WTarget.win selfW) =
      some (Except.error SerializeError.selfReference) := by
    simp [serializeWindowReference]
  rcases hnat with hb | hn
  · simp [postMessage, hh, hb, hhook, hser]
  · cases hb : env.browserSupportsPostMessage <;>
      simp [postMessage, hh, hb, hn, hhook, hser]

theorem self_target_selfref_on_fallback_path_witness :
    postMessage envFallback noRelGraph 3 0 "m" "http://x.com" (some 0) none 7 =
      (some (Except.error SendError.selfReference), 7) :=
  self_target_selfref_on_fallback_path envFallback noRelGraph 3 0 "m" "http://x.com" 7
    (by decide) (Or.inl rfl) (by decide)

/-- C4 counterexample: with the target simultaneously a direct child
frame and the parent of the source, resolution returns the parent hop,
not the claimed frame hop, because serializeWindowReference checks the
parent directly before ever consulting the frame checks inside
transverseLevel. -/
theorem parent_beats_frames_counterexample :
    serializeWindowReference frameParentGraph 5 0 (WTarget.win 1) = some (Except.ok "p") ∧
    (1 : Nat) ∈ frameParentGraph.frames 0 ∧
    ("p" : String) ≠ "f,0" := by decide

/-- C4 amended: at the entry point serializeWindowReference the direct
relations are checked parent first, then opener, before transverseLevel
(which checks frames, then parent, then opener at each visited level)
is ever invoked; so a target that is both a direct child frame and the
parent resolves to the parent hop, and one that is both a direct child
frame and the opener (but not the parent) resolves to the opener hop. -/
theorem serialize_direct_order_parent_opener_first :
    ∀ (g : WinGraph) (fuel s t : Nat), t ∈ g.frames s → s ≠ t →
      (g.parent s = some t →
        serializeWindowReference g fuel s (WTarget.win t) = some (Except.ok "p")) ∧
      (g.parent s ≠ some t → g.opener s = some t →
        serializeWindowReference g fuel s (WTarget.win t) = some (Except.ok "o")) := by
  intro g fuel s t hmem hst
  have hts : t ≠ s := fun e => hst e.symm
  constructor
  · intro hp
    simp [serializeWindowReference, hst, hts, hp]
  · intro hp ho
    simp [serializeWindowReference, hst, hts, hp, ho]

theorem serialize_direct_order_parent_opener_first_witness :
    serializeWindowReference frameParentGraph 3 0 (WTarget.win 1) = some (Except.ok "p") :=
  (serialize_direct_order_parent_opener_first frameParentGraph 3 0 1 (by decide)
    (by decide)).1 (by decide)

theorem cycleGraph_frames0 : cycleGraph.frames 0 = [] := rfl

theorem cycleGraph_frames1 : cycleGraph.frames 1 = [0] := rfl

theorem cycleGraph_parent0 : cycleGraph.parent 0 = some 1 := rfl

theorem cycleGraph_parent1 : cycleGraph.parent 1 = some 1 := rfl

theorem cycleGraph_opener (w : Nat) : cycleGraph.opener w = none := rfl

/-- Once the level is NaN the search from either window of the cycle
never returns: window 0 recurses into its parent 1, window 1 recurses
into its child frame 0, and the guard NaN greater-or-equal 4 is false
forever. -/
theorem cycle_nan_diverges :
    ∀ fuel : Nat, transverseLevel cycleGraph fuel 0 2 JSLevel.nan = none ∧
      transverseLevel cycleGraph fuel 1 2 JSLevel.nan = none := by
  intro fuel
  induction fuel with
  | zero => exact ⟨rfl, rfl⟩
  | succ n ih =>
    constructor
    · simp [transverseLevel, cycleGraph_frames0, cycleGraph_parent0, cycleGraph_opener,
        framesLoopStep, findFrameIdx, JSLevel.add1, JSLevel.ge4, ih.2]
    · simp [transverseLevel, cycleGraph_frames1, cycleGraph_parent1, cycleGraph_opener,
        framesLoopStep, findFrameIdx, JSLevel.add1, JSLevel.ge4, ih.1]

/-- The initial call leaves level undefined, whose successor is NaN,
so the very first recursive step already enters the divergent regime. -/
theorem cycle_undef_diverges :
    ∀ fuel : Nat, transverseLevel cycleGraph fuel 0 2 JSLevel.undef = none := by
  intro fuel
  cases fuel with
  | zero => rfl
  | succ n =>
    simp [transverseLevel, cycleGraph_frames0, cycleGraph_parent0, cycleGraph_opener,
      framesLoopStep, findFrameIdx, JSLevel.add1, JSLevel.ge4, (cycle_nan_diverges n).2]

/-- C1: the depth guard is dead and the search does not terminate on
cyclic graphs.  serializeWindowReference invokes transverseLevel with
no level argument, so level is undefined; undefined plus one is NaN
and NaN is never greater-or-equal 4, hence on the plain
iframe-in-parent cycle above with an unreachable target the resolution
never returns for any amount of fuel, instead of stopping at depth 4
and raising the unresolvable-window error. -/
theorem depth_guard_dead_recursion_diverges :
    ∀ fuel : Nat,
      serializeWindowReference cycleGraph fuel 0 (WTarget.win 2) = none := by
  intro fuel
  simp [serializeWindowReference, cycleGraph_parent0, cycleGraph_opener,
    cycle_undef_diverges fuel]

theorem openerChainGraph_frames (w : Nat) : openerChainGraph.frames w = [] := rfl

theorem openerChainGraph_parent0 : openerChainGraph.parent 0 = none := rfl

theorem openerChainGraph_parent1 : openerChainGraph.parent 1 = some 2 := rfl

theorem openerChainGraph_opener0 : openerChainGraph.opener 0 = some 1 := rfl

theorem openerChainGraph_opener1 : openerChainGraph.opener 1 = none := rfl

/-- C3: the serialized path for an opener hop followed by a parent hop
is the two segments concatenated with no separator: line 194 returns
the letter o glued directly onto the tail reference, unlike the frame
and parent branches which insert the dot, so the resolver emits op
where the stated grammar requires o dot p. -/
theorem opener_hop_missing_separator :
    ∀ fuel : Nat, 2 ≤ fuel →
      serializeWindowReference openerChainGraph fuel 0 (WTarget.win 2) =
        some (Except.ok "op") := by
  intro fuel hf
  obtain ⟨k, rfl⟩ : ∃ k, fuel = k + 2 := ⟨fuel - 2, by omega⟩
  simp [serializeWindowReference, transverseLevel, openerChainGraph_frames,
    openerChainGraph_parent0, openerChainGraph_parent1, openerChainGraph_opener0,
    openerChainGraph_opener1, framesLoopStep, findFrameIdx, JSLevel.add1, JSLevel.ge4]

theorem opener_hop_missing_separator_witness :
    serializeWindowReference openerChainGraph 5 0 (WTarget.win 2) =
      some (Except.ok "op") :=
  opener_hop_missing_separator 5 (by decide)

/-- Registration keeps the native-listener count at or below one: the
count only grows when the table is empty, and an empty table means no
listener yet. -/
theorem registerAll_listeners_le_one :
    ∀ (regs : List (Nat × Option AllowRule)) (st : PageState),
      st.nativeListeners ≤ 1 → (st.handlers.isEmpty = true → st.nativeListeners = 0) →
      (registerAll st regs).nativeListeners ≤ 1 := by
  intro regs
  induction regs with
  | nil => intro st h1 h2; exact h1
  | cons r rest ih =>
    intro st h1 h2
    obtain ⟨cb, rule⟩ := r
    simp only [registerAll, receiveMessage]
    apply ih
    · simp only [jqOn]
      cases he : st.handlers.isEmpty
      · simpa [he] using h1
      · simp [he, h2 he]
    · intro he
      simp [jqOn] at he

/-- Each registration appends exactly one entry to the dispatch table. -/
theorem registerAll_length :
    ∀ (regs : List (Nat × Option AllowRule)) (st : PageState),
      (registerAll st regs).handlers.length = st.handlers.length + regs.length := by
  intro regs
  induction regs with
  | nil => intro st; simp [registerAll]
  | cons r rest ih =>
    intro st
    obtain ⟨cb, rule⟩ := r
    simp only [registerAll, receiveMessage]
    rw [ih]
    simp [jqOn]
    omega

/-- Every registered entry whose handler accepts the event contributes
its invocation to the dispatch output. -/
theorem mem_dispatchEvent_of_match :
    ∀ (st : PageState) (h : Handler) (ev : JqEvent) (dataArg originArg : JSVal)
      (d : Delivered),
      h ∈ st.handlers → handlerRun h.rule ev dataArg originArg = some d →
      (h.cbId, d) ∈ dispatchEvent st ev dataArg originArg := by
  intro st h ev dataArg originArg d hmem hrun
  unfold dispatchEvent
  exact List.mem_filterMap.mpr ⟨h, hmem, by simp [hrun]⟩

/-- C5: however many registrations are made on a fresh page, at most
one native inbound-message listener is installed; each registration
appends exactly one independent rule-callback entry to the shared
dispatch table; and on a native delivery every entry whose rule
matches the event origin is invoked with the event data and origin.
The jQuery event plumbing (single native listener per element and
type, handler table run in full) is modelled from the spec, jQuery
itself not being part of src/. -/
theorem receive_single_listener_dispatch :
    ∀ (regs : List (Nat × Option AllowRule)) (oe : NativeEvent),
      (registerAll initialPage regs).nativeListeners ≤ 1 ∧
      (registerAll initialPage regs).handlers.length = regs.length ∧
      (∀ h ∈ (registerAll initialPage regs).handlers,
        isOriginMatch h.rule (JSVal.str oe.origin) = true →
        (h.cbId, { data := JSVal.str oe.data, origin := JSVal.str oe.origin }) ∈
          dispatchNative (registerAll initialPage regs) oe) := by
  intro regs oe
  refine ⟨registerAll_listeners_le_one regs initialPage (by decide) (fun _ => rfl),
    ?_, ?_⟩
  · rw [registerAll_length]
    simp [initialPage]
  · intro h hmem hmatch
    unfold dispatchNative
    apply mem_dispatchEvent_of_match _ h _ _ _ _ hmem
    simp [handlerRun, validatedOrigin, reportedOrigin, reportedData, eventOwnOrigin,
      eventOwnData, JSVal.truthy, hmatch]

theorem receive_single_listener_dispatch_witness :
    (registerAll initialPage [(0, none)]).nativeListeners ≤ 1 ∧
    ((0 : Nat), ({ data := JSVal.str "hi", origin := JSVal.str "http://a" } : Delivered)) ∈
      dispatchNative (registerAll initialPage [(0, none)])
        { data := "hi", origin := "http://a" } := by
  constructor
  · exact (receive_single_listener_dispatch [(0, none)]
      { data := "hi", origin := "http://a" }).1
  · refine (receive_single_listener_dispatch [(0, none)]
      { data := "hi", origin := "http://a" }).2.2
      { rule := AllowRule.str "*", cbId := 0 } ?_ rfl
    simp [registerAll, receiveMessage, jqOn, initialPage, jsFalsyRule]

/-- C6 counterexample: delivering the message percent-four-one through
the hook invokes the wildcard callback with data A, the decoded form,
while the native listener for the same message delivers the message
itself; the two transports disagree and the hook-delivered data is not
the message. -/
theorem hook_decodes_percent_sequences :
    receiveMessageHook onePage "%41" "http://a" =
      some [(0, { data := JSVal.str "A", origin := JSVal.str "http://a" })] ∧
    dispatchNative onePage { data := "%41", origin := "http://a" } =
      [(0, { data := JSVal.str "%41", origin := JSVal.str "http://a" })] ∧
    JSVal.str "A" ≠ JSVal.str "%41" := by
  refine ⟨rfl, rfl, by decide⟩

/-- For one handler the triggered delivery with truthy decoded message
and origin behaves exactly like the native delivery of the same
message and origin. -/
theorem handlerRun_trigger_eq_native (rule : AllowRule) (m origin : String)
    (hm : m ≠ "") (ho : origin ≠ "") :
    handlerRun rule { originalEvent := none } (JSVal.str m) (JSVal.str origin) =
      handlerRun rule { originalEvent := some { data := m, origin := origin } }
        JSVal.undef JSVal.undef := by
  simp [handlerRun, validatedOrigin, reportedOrigin, reportedData, eventOwnOrigin,
    eventOwnData, JSVal.truthy, hm, ho]

/-- C6 amended: the hook funnels into the same dispatch path as the
native listener but percent-decodes the message first; for every page
state, whenever the message is a nonempty fixed point of decoding (in
particular any message without a percent sign) and the origin is
nonempty, the hook produces exactly the callback invocations of a
native delivery of that message and origin, so the delivered data
equals the message precisely in the fixed-point case. -/
theorem hook_matches_native_on_decoded_fixed_points :
    ∀ (st : PageState) (m origin : String),
      percentDecode m = some m → m ≠ "" → origin ≠ "" →
      receiveMessageHook st m origin =
        some (dispatchNative st { data := m, origin := origin }) := by
  intro st m origin hdec hm ho
  unfold receiveMessageHook
  rw [hdec, Option.map_some']
  unfold dispatchNative dispatchEvent
  have hfun :
      (fun h : Handler =>
        (handlerRun h.rule { originalEvent := none } (JSVal.str m)
          (JSVal.str origin)).map (fun d => (h.cbId, d))) =
      (fun h : Handler =>
        (handlerRun h.rule { originalEvent := some { data := m, origin := origin } }
          JSVal.undef JSVal.undef).map (fun d => (h.cbId, d))) := by
    funext h
    rw [handlerRun_trigger_eq_native h.rule m origin hm ho]
  rw [hfun]

theorem hook_matches_native_on_decoded_fixed_points_witness :
    receiveMessageHook onePage "hello" "http://a" =
      some (dispatchNative onePage { data := "hello", origin := "http://a" }) :=
  hook_matches_native_on_decoded_fixed_points onePage "hello" "http://a"
    (by decide) (by decide) (by decide)

/-- C8 counterexample: for a hook-triggered delivery the synthetic
event has no origin of its own (undefined), yet the allow-rule check
is applied to the caller-supplied origin: with an exact rule equal to
the supplied origin the callback fires, which could not happen had the
undefined event origin been validated. -/
theorem validated_origin_not_event_origin_on_trigger :
    validatedOrigin { originalEvent := none } (JSVal.str "http://a") =
      JSVal.str "http://a" ∧
    eventOwnOrigin { originalEvent := none } = JSVal.undef ∧
    JSVal.str "http://a" ≠ JSVal.undef ∧
    handlerRun (AllowRule.str "http://a") { originalEvent := none }
      (JSVal.str "x") (JSVal.str "http://a") =
      some { data := JSVal.str "x", origin := JSVal.str "http://a" } ∧
    isOriginMatch (AllowRule.str "http://a")
      (eventOwnOrigin { originalEvent := none }) = false := by
  decide

/-- C8 amended: when the event carries a native original event the
allow-rule check is applied to that event origin, whatever
caller-supplied value is reported to the callback; when it does not
(a hook-triggered delivery) the check is applied to the truthy
caller-supplied origin, which is also exactly the value reported to
the callback. -/
theorem validated_origin_by_event_kind :
    ∀ (rule : AllowRule) (oe : NativeEvent) (dataArg originArg : JSVal) (o : String),
      validatedOrigin { originalEvent := some oe } originArg = JSVal.str oe.origin ∧
      ((handlerRun rule { originalEvent := some oe } dataArg originArg).isSome =
        isOriginMatch rule (JSVal.str oe.origin)) ∧
      (o ≠ "" →
        validatedOrigin { originalEvent := none } (JSVal.str o) = JSVal.str o ∧
        reportedOrigin { originalEvent := none } (JSVal.str o) = JSVal.str o) := by
  intro rule oe dataArg originArg o
  refine ⟨rfl, ?_, fun ho => ⟨?_, ?_⟩⟩
  · cases hb : isOriginMatch rule (JSVal.str oe.origin) <;>
      simp [handlerRun, validatedOrigin, hb]
  · simp [validatedOrigin, reportedOrigin, JSVal.truthy, ho]
  · simp [reportedOrigin, JSVal.truthy, ho]

theorem validated_origin_by_event_kind_witness :
    validatedOrigin { originalEvent := none } (JSVal.str "http://b") =
      JSVal.str "http://b" :=
  ((validated_origin_by_event_kind AllowRule.other { data := "d", origin := "x" }
      JSVal.undef JSVal.undef "http://b").2.2 (by decide)).1
